import Mathlib

/-!
Shallow embedding of the grid-trading reconciliation engine of Girdbot_v3
(`src/gridbot/strategy.py` and `src/gridbot/models.py`).

Modelling conventions:
* Python `Decimal` values are embedded as exact rationals (`ℚ`); the source
  performs only `+ - * / min max` on them.
* The exchange gateway is modelled deterministically: order-creation calls
  return a fresh order id drawn from a counter (`nextId`) and echo back the
  requested price (real venues echo the limit price of a placed order; for
  market buys the ticker price is returned).  Every outward call is recorded
  as an `Action` so that frame properties can be stated.
* Nullable fields (`Optional[...]` in the pydantic models) are `Option`s.
* Python truthiness of an id string (`if pair.buy_order_id:`) is `some s`
  with `s ≠ ""`; truthiness of an optional decimal is `some q` with `q ≠ 0`.
-/

namespace Gridbot

/-- Kind of the buy leg of a rung (`buy_type` in `models.OrderPair`). -/
inductive BuyType
  | limit
  | market
deriving DecidableEq, Repr

/-- Status of the buy leg of a rung (`buy_order_status` in `models.OrderPair`). -/
inductive BuyStatus
  | isOpen
  | isClosed
deriving DecidableEq, Repr

/-- One ladder rung: `models.OrderPair`. -/
structure OrderPair where
  buyOrderId : Option String := none
  sellOrderId : Option String := none
  buyPrice : Option ℚ := none
  sellPrice : Option ℚ := none
  buyType : Option BuyType := none
  amount : ℚ
  timestamp : ℤ
  buyOrderStatus : Option BuyStatus := none
deriving DecidableEq, Repr

instance : Inhabited OrderPair := ⟨{ amount := 0, timestamp := 0 }⟩

/-- A fill event: `models.Trade`.  `side` is the raw string delivered by the
order-watch stream (the engine branches on `trade.side == "buy"`). -/
structure Trade where
  orderId : String
  side : String
  symbol : String
  amount : ℚ
  price : ℚ
  cost : ℚ
  timestamp : ℤ
deriving DecidableEq, Repr

/-- The configuration fields of `models.BotConfig` that the strategy reads. -/
structure BotConfig where
  investment : ℚ
  grids : ℕ
  gridsize : ℚ
deriving DecidableEq, Repr

/-- `BotConfig.quote_per_trade`: quote currency amount per trade. -/
def quote_per_trade (cfg : BotConfig) : ℚ :=
  cfg.investment / (cfg.grids : ℚ)

/-- `GridStrategy.calculate_grid_size`: size of each grid level. -/
def calculate_grid_size (cfg : BotConfig) (current_price : ℚ) : ℚ :=
  (current_price * cfg.gridsize) / 100

/-- Outward-visible effects of the engine: gateway calls, persistence writes
and websocket notifications, in the order the source issues them. -/
inductive Action
  | cancelOrder (id : String)
  | marketBuy (amount : ℚ)
  | limitBuy (amount : ℚ) (price : Option ℚ)
  | limitSell (amount : ℚ) (price : ℚ)
  | saveSnapshot (pairs : List OrderPair)
  | notifyTrade (side : String) (amount price : ℚ) (timestamp : ℤ)
  | notifyStatus (total active completed : ℕ)
  | notifyError
deriving DecidableEq, Repr

/-- Mutable state of a `GridStrategy` instance.  `nextId` is the model's
supply of venue-issued order ids. -/
structure GridState where
  orderPairs : List OrderPair
  completedTrades : List OrderPair
  gridSize : ℚ
  nextId : ℕ
deriving DecidableEq, Repr

/-- Fresh order id issued by the modelled exchange. -/
def freshId (n : ℕ) : String := "ord-" ++ toString n

/-- Number of pairs whose sell leg is attached
(`len([p for p in self.order_pairs if p.sell_order_id is not None])`). -/
def activeCount (pairs : List OrderPair) : ℕ :=
  (pairs.filter (fun p => p.sellOrderId.isSome)).length

/-- Grid-status notification sent when a websocket is configured. -/
def statusActs (ws : Bool) (pairs completed : List OrderPair) : List Action :=
  if ws then
    [Action.notifyStatus pairs.length (activeCount pairs) completed.length]
  else []

/-- Trade notification sent when a websocket is configured. -/
def tradeActs (ws : Bool) (trade : Trade) : List Action :=
  if ws then [Action.notifyTrade trade.side trade.amount trade.price trade.timestamp]
  else []

/-- `GridStrategy._last_sell_order`: true iff no other rung still holds a sell
leg with a different order id. -/
def lastSellOrder (pairs : List OrderPair) (orderId : String) : Bool :=
  pairs.all (fun p => p.sellOrderId == some orderId || p.sellOrderId == none)

/-- Enumerating search for the rung with the numerically lowest buy price among
rungs whose buy leg exists (the loop of `GridStrategy._trail_up`).  A missing
buy price is compared as `0`; the claims about trail-up assume every candidate
rung carries a buy price, which is the only situation the Python code survives
(comparing `None` with a `Decimal` raises). -/
def betterLowest (acc : Option (ℕ × OrderPair)) (p : OrderPair) : Bool :=
  p.buyOrderId.isSome &&
    (match acc with
     | none => true
     | some a => decide (p.buyPrice.getD 0 < a.2.buyPrice.getD 0))

def findLowestBuyAux : List OrderPair → ℕ → Option (ℕ × OrderPair) → Option (ℕ × OrderPair)
  | [], _, acc => acc
  | p :: rest, i, acc =>
      if betterLowest acc p then findLowestBuyAux rest (i + 1) (some (i, p))
      else findLowestBuyAux rest (i + 1) acc

/-- Entry point of the lowest-buy search (`enumerate(self.order_pairs)`). -/
def findLowestBuy (pairs : List OrderPair) : Option (ℕ × OrderPair) :=
  findLowestBuyAux pairs 0 none

/-- `GridStrategy._trail_up`: cancel the lowest buy rung, market-buy back in at
the ticker price and replace the rung in place.  `tickerLast` is the price
fetched from the gateway at the start of the call; `now` is the wall clock. -/
def trailUp (cfg : BotConfig) (st : GridState) (tickerLast : ℚ) (now : ℤ) :
    GridState × List Action :=
  let current_price := tickerLast
  match findLowestBuy st.orderPairs with
  | none => (st, [])
  | some (idx, lowest) =>
      let cancelActs : List Action :=
        match lowest.buyOrderId with
        | some oid => [Action.cancelOrder oid]
        | none => []
      let buy_amount := quote_per_trade cfg / current_price
      let buyId := freshId st.nextId
      let sell_price := current_price + st.gridSize
      let sellId := freshId (st.nextId + 1)
      let new_pair : OrderPair :=
        { buyOrderId := some buyId
          buyPrice := some current_price
          sellOrderId := some sellId
          sellPrice := some sell_price
          amount := buy_amount
          timestamp := now
          buyOrderStatus := some BuyStatus.isClosed }
      let pairs2 := st.orderPairs.set idx new_pair
      ({ st with orderPairs := pairs2, nextId := st.nextId + 2 },
       cancelActs ++
         [Action.marketBuy buy_amount, Action.limitSell buy_amount sell_price,
          Action.saveSnapshot pairs2])

/-- `GridStrategy.handle_filled_order`.  `ws` says whether a websocket is
attached, `tickerLast` is what a `fetch_ticker` during a trail-up would
return, `now` the wall clock used for the trail-up rung's timestamp. -/
def handle_filled_order (cfg : BotConfig) (ws : Bool) (st : GridState)
    (trade : Trade) (tickerLast : ℚ) (now : ℤ) : GridState × List Action :=
  let tacts := tradeActs ws trade
  if trade.side = "buy" then
    let pairs0 := st.orderPairs
    let found := pairs0.findIdx? (fun p => p.buyOrderId == some trade.orderId)
    let step : List OrderPair × ℕ :=
      match found with
      | some i => (pairs0, i)
      | none =>
          (pairs0 ++
            [{ buyOrderId := some trade.orderId, buyPrice := some trade.price,
               amount := trade.amount, timestamp := trade.timestamp }],
           pairs0.length)
    let pairs1 := step.1
    let idx := step.2
    let sell_price := trade.price + st.gridSize
    let sellId := freshId st.nextId
    let pair := pairs1.getD idx default
    let pair2 :=
      { pair with sellOrderId := some sellId, sellPrice := some sell_price,
                  buyOrderStatus := some BuyStatus.isClosed }
    let pairs2 := pairs1.set idx pair2
    let st2 := { st with orderPairs := pairs2, nextId := st.nextId + 1 }
    (st2,
     tacts ++ [Action.limitSell trade.amount sell_price,
               Action.saveSnapshot pairs2] ++
       statusActs ws pairs2 st.completedTrades)
  else
    match st.orderPairs.findIdx? (fun p => p.sellOrderId == some trade.orderId) with
    | none =>
        (st, tacts ++ [Action.saveSnapshot st.orderPairs] ++
          statusActs ws st.orderPairs st.completedTrades)
    | some i =>
        let completed_pair := st.orderPairs.getD i default
        let pairs1 := st.orderPairs.eraseIdx i
        let completed1 := st.completedTrades ++ [completed_pair]
        let buyId := freshId st.nextId
        let new_pair : OrderPair :=
          { buyOrderId := some buyId
            buyPrice := completed_pair.buyPrice
            amount := trade.amount
            timestamp := trade.timestamp
            buyOrderStatus := some BuyStatus.isOpen }
        let pairs2 := pairs1 ++ [new_pair]
        let st1 : GridState :=
          { st with orderPairs := pairs2, completedTrades := completed1,
                    nextId := st.nextId + 1 }
        let buyAct := Action.limitBuy completed_pair.amount completed_pair.buyPrice
        if lastSellOrder pairs2 trade.orderId then
          let r := trailUp cfg st1 tickerLast now
          (r.1,
           tacts ++ [buyAct] ++ r.2 ++ [Action.saveSnapshot r.1.orderPairs] ++
             statusActs ws r.1.orderPairs completed1)
        else
          (st1,
           tacts ++ [buyAct] ++ [Action.saveSnapshot pairs2] ++
             statusActs ws pairs2 completed1)

/-- Limit-buy rung number `k` (for `i = k + 1` in the range `1 .. grids-1` of
the initialisation loop of `GridStrategy.initialize_grid`). -/
def initBuyPair (cfg : BotConfig) (current_price grid_size : ℚ) (now : ℤ)
    (n0 : ℕ) (k : ℕ) : OrderPair :=
  let i : ℚ := ((k + 1 : ℕ) : ℚ)
  let buy_price := current_price - i * grid_size
  let buy_amount := quote_per_trade cfg * (1 / (current_price - i * grid_size))
  { buyOrderId := some (freshId (n0 + 2 + k))
    buyPrice := some buy_price
    buyType := some BuyType.limit
    amount := buy_amount
    timestamp := now
    buyOrderStatus := some BuyStatus.isOpen }

/-- `GridStrategy.initialize_grid`.  `loaded` is what `_load_order_pairs`
recovered from the snapshot store (`none` when the file is absent),
`openOrderIds` the venue's open orders, `tickerLast` the ticker price and
`n0` the id-supply counter.  On a fresh start the engine cancels everything,
market-buys the first rung and ladders `grids - 1` limit buys below it. -/
def initialize_grid (cfg : BotConfig) (ws : Bool) (completed0 : List OrderPair)
    (loaded : Option (List OrderPair)) (fresh_start : Bool)
    (openOrderIds : List String) (tickerLast : ℚ) (now : ℤ) (n0 : ℕ) :
    GridState × List Action :=
  let loadedPairs := loaded.getD []
  if fresh_start then
    let cancelActs := openOrderIds.map Action.cancelOrder
    let current_price := tickerLast
    let grid_size := calculate_grid_size cfg current_price
    let zeroStatus := if ws then [Action.notifyStatus 0 0 0] else []
    let amount := quote_per_trade cfg / current_price
    let buyId := freshId n0
    let sell_price := current_price + grid_size
    let sellId := freshId (n0 + 1)
    let initial_pair : OrderPair :=
      { buyOrderId := some buyId
        buyPrice := some current_price
        buyType := some BuyType.market
        sellOrderId := some sellId
        sellPrice := some sell_price
        amount := amount
        timestamp := now
        buyOrderStatus := some BuyStatus.isClosed }
    let buyPairs := (List.range (cfg.grids - 1)).map
      (initBuyPair cfg current_price grid_size now n0)
    let buyActs := (List.range (cfg.grids - 1)).map (fun k =>
      Action.limitBuy (initBuyPair cfg current_price grid_size now n0 k).amount
        (some (current_price - ((k + 1 : ℕ) : ℚ) * grid_size)))
    let pairs := initial_pair :: buyPairs
    let st : GridState :=
      { orderPairs := pairs, completedTrades := [], gridSize := grid_size,
        nextId := n0 + 2 + (cfg.grids - 1) }
    (st,
     cancelActs ++ zeroStatus ++
       [Action.marketBuy amount, Action.limitSell amount sell_price] ++
       buyActs ++ [Action.saveSnapshot pairs] ++
       statusActs ws pairs [])
  else
    let st : GridState :=
      { orderPairs := loadedPairs, completedTrades := completed0,
        gridSize := 0, nextId := n0 }
    (st, statusActs ws loadedPairs completed0)

/-! ### Snapshot serialization (`models.OrderPair.to_dict` / `from_dict`) -/

/-- One record of the persisted snapshot.  Decimal fields are serialized as
exact-precision strings; an exact string and the rational it denotes are in
bijection, so the record stores the rational itself.  `none` stands for JSON
`null`. -/
structure PairRecord where
  buy_order_id : Option String
  sell_order_id : Option String
  buy_price : Option ℚ
  sell_price : Option ℚ
  buy_type : Option BuyType
  amount : ℚ
  timestamp : ℤ
deriving DecidableEq, Repr

/-- `OrderPair.to_dict`.  `str(x) if x else None` maps both `None` and the
falsy decimal `0` to `null`; note that `buy_order_status` is not written. -/
def to_dict (p : OrderPair) : PairRecord :=
  { buy_order_id := p.buyOrderId
    sell_order_id := p.sellOrderId
    buy_price := match p.buyPrice with
      | none => none
      | some q => if q = 0 then none else some q
    sell_price := match p.sellPrice with
      | none => none
      | some q => if q = 0 then none else some q
    buy_type := p.buyType
    amount := p.amount
    timestamp := p.timestamp }

/-- `OrderPair.from_dict`.  A serialized decimal string is never empty, hence
never falsy; `buy_order_status` is not restored and defaults to `None`. -/
def from_dict (r : PairRecord) : OrderPair :=
  { buyOrderId := r.buy_order_id
    sellOrderId := r.sell_order_id
    buyPrice := r.buy_price
    sellPrice := r.sell_price
    buyType := r.buy_type
    amount := r.amount
    timestamp := r.timestamp
    buyOrderStatus := none }

/-- `_load_order_pairs` applied to the file written by `_save_order_pairs`. -/
def loadSaved (pairs : List OrderPair) : List OrderPair :=
  (pairs.map to_dict).map from_dict

/-! ### Health check (`GridStrategy.check_order_health`) -/

/-- Authoritative order status reported by `fetch_order`
(everything other than `closed` / `canceled` triggers no branch). -/
inductive OrdStatus
  | closed
  | canceled
  | other
deriving DecidableEq, Repr

/-- Environment of one health-check pass: the venue's open-order ids, the
ticker price, the authoritative status oracle (`none` models a raised and
caught per-rung exception) and the wall clock. -/
structure HealthEnv where
  openOrderIds : List String
  tickerLast : ℚ
  fetchOrder : String → Option OrdStatus
  now : ℤ

/-- Loop state of a health-check pass: the live rung list, the completed
ledger, the ids created during this pass, the `orders_updated` flag, the id
supply and the recorded outward calls. -/
structure HealthSt where
  pairs : List OrderPair
  completed : List OrderPair
  newOrderIds : List (Option String)
  updated : Bool
  nextId : ℕ
  acts : List Action

/-- Replace the first occurrence of `old` (Python mutates the rung object in
place, wherever it currently sits in the live list). -/
def replaceFirst (l : List OrderPair) (old new : OrderPair) : List OrderPair :=
  match l with
  | [] => []
  | x :: xs => if x = old then new :: xs else x :: replaceFirst xs old new

/-- Buy-leg repair of one rung (`strategy.py` lines 326-351).  Returns the
updated loop state and the rung's current (possibly mutated) value, which the
subsequent sell-leg check reads.  When the authoritative status is `closed`
but the rung has no buy price, the status mutation has already happened when
the sell-price computation raises, and the exception is caught. -/
def buyCheck (env : HealthEnv) (g : ℚ) (hs : HealthSt) (cur : OrderPair) :
    HealthSt × OrderPair :=
  match cur.buyOrderId with
  | none => (hs, cur)
  | some bid =>
    if cur.buyOrderStatus = some BuyStatus.isOpen ∧ bid ≠ "" ∧
        bid ∉ env.openOrderIds ∧ cur.buyType = some BuyType.limit then
      match env.fetchOrder bid with
      | some OrdStatus.closed =>
          let cur1 := { cur with buyOrderStatus := some BuyStatus.isClosed }
          match cur.buyPrice with
          | none => ({ hs with pairs := replaceFirst hs.pairs cur cur1 }, cur1)
          | some bp =>
              let sell_price := max (env.tickerLast + g) (bp + g)
              let sellId := freshId hs.nextId
              let cur2 := { cur1 with sellOrderId := some sellId,
                                      sellPrice := some sell_price }
              ({ hs with pairs := replaceFirst hs.pairs cur cur2,
                         newOrderIds := hs.newOrderIds ++ [some sellId],
                         updated := true, nextId := hs.nextId + 1,
                         acts := hs.acts ++ [Action.limitSell cur.amount sell_price] },
               cur2)
      | some OrdStatus.canceled =>
          match cur.buyPrice with
          | none => (hs, cur)
          | some bp =>
              let new_buy_price := min env.tickerLast bp
              let buyId := freshId hs.nextId
              let cur1 := { cur with buyOrderId := some buyId,
                                     buyPrice := some new_buy_price }
              ({ hs with pairs := replaceFirst hs.pairs cur cur1,
                         newOrderIds := hs.newOrderIds ++ [some buyId],
                         updated := true, nextId := hs.nextId + 1,
                         acts := hs.acts ++ [Action.limitBuy cur.amount (some new_buy_price)] },
               cur1)
      | _ => (hs, cur)
    else (hs, cur)

/-- Sell-leg repair of one rung (`strategy.py` lines 357-390).  On `closed`
the rung moves to the completed ledger before the replacement price is
computed, so a missing sell price leaves the rung removed with no
replacement. -/
def sellCheck (env : HealthEnv) (g : ℚ) (hs : HealthSt) (cur : OrderPair) :
    HealthSt :=
  match cur.sellOrderId with
  | none => hs
  | some sid =>
    if sid ≠ "" ∧ sid ∉ env.openOrderIds then
      match env.fetchOrder sid with
      | some OrdStatus.closed =>
          let completed1 := hs.completed ++ [cur]
          let pairs1 := hs.pairs.erase cur
          match cur.sellPrice with
          | none => { hs with completed := completed1, pairs := pairs1 }
          | some sp =>
              let buy_price := min (env.tickerLast - g) (sp - g)
              let buyId := freshId hs.nextId
              let new_pair : OrderPair :=
                { buyOrderId := some buyId
                  buyPrice := some buy_price
                  amount := cur.amount
                  buyOrderStatus := some BuyStatus.isOpen
                  timestamp := env.now }
              { hs with completed := completed1,
                        pairs := pairs1 ++ [new_pair],
                        newOrderIds := hs.newOrderIds ++ [cur.buyOrderId],
                        updated := true, nextId := hs.nextId + 1,
                        acts := hs.acts ++ [Action.limitBuy cur.amount (some buy_price)] }
      | some OrdStatus.canceled =>
          match cur.sellPrice with
          | none => hs
          | some sp =>
              let new_sell_price := max env.tickerLast sp
              let sellId := freshId hs.nextId
              let cur1 := { cur with sellOrderId := some sellId,
                                     sellPrice := some new_sell_price }
              { hs with pairs := replaceFirst hs.pairs cur cur1,
                        newOrderIds := hs.newOrderIds ++ [some sellId],
                        updated := true, nextId := hs.nextId + 1,
                        acts := hs.acts ++ [Action.limitSell cur.amount new_sell_price] }
      | _ => hs
    else hs

/-- Body of the health-check loop for one rung of the iteration snapshot
(`for pair in self.order_pairs[:]`). -/
def healthStep (env : HealthEnv) (g : ℚ) (hs : HealthSt) (p : OrderPair) :
    HealthSt :=
  if p.buyOrderId ∈ hs.newOrderIds then hs
  else
    let r := buyCheck env g hs p
    if r.2.sellOrderId ∈ r.1.newOrderIds then r.1
    else sellCheck env g r.1 r.2

/-- Cancellation calls for the legs of an excess rung
(`if excess_pair.buy_order_id: ... cancel`, truthiness of the id string). -/
def cancelIfTruthy (o : Option String) : List Action :=
  match o with
  | none => []
  | some i => if i = "" then [] else [Action.cancelOrder i]

/-- Both legs of an excess rung, buy first. -/
def pairLegCancels (p : OrderPair) : List Action :=
  cancelIfTruthy p.buyOrderId ++ cancelIfTruthy p.sellOrderId

/-- The body of the `while len(self.order_pairs) > self.config.grids` trim
loop, structured on a fuel bound (each iteration pops one rung, so the
initial length bounds the iteration count). -/
def trimExcessGo : ℕ → ℕ → List OrderPair → List OrderPair × List Action
  | 0, _, pairs => (pairs, [])
  | fuel + 1, grids, pairs =>
      if grids < pairs.length then
        match pairs.getLast? with
        | none => (pairs, [])
        | some excess =>
            let r := trimExcessGo fuel grids pairs.dropLast
            (r.1, pairLegCancels excess ++ r.2)
      else (pairs, [])

/-- The excess-rung trim: pop the most recently added rung and cancel its
legs until the count fits. -/
def trimExcess (grids : ℕ) (pairs : List OrderPair) : List OrderPair × List Action :=
  trimExcessGo pairs.length grids pairs

/-- `GridStrategy.check_order_health`: one full reconciliation pass. -/
def check_order_health (cfg : BotConfig) (env : HealthEnv) (st : GridState) :
    GridState × List Action :=
  let hs0 : HealthSt :=
    { pairs := st.orderPairs, completed := st.completedTrades,
      newOrderIds := [], updated := false, nextId := st.nextId, acts := [] }
  let hs1 := st.orderPairs.foldl (healthStep env st.gridSize) hs0
  let trimmed := trimExcess cfg.grids hs1.pairs
  let saveActs := if hs1.updated then [Action.saveSnapshot trimmed.1] else []
  ({ st with orderPairs := trimmed.1, completedTrades := hs1.completed,
             nextId := hs1.nextId },
   hs1.acts ++ trimmed.2 ++ saveActs)

/-! ### Helper lemmas -/

theorem getD_last_append (l : List OrderPair) (a d : OrderPair) :
    (l ++ [a]).getD l.length d = a := by
  induction l with
  | nil => rfl
  | cons x xs ih => simpa using ih

theorem set_last_append (l : List OrderPair) (a b : OrderPair) :
    (l ++ [a]).set l.length b = l ++ [b] := by
  induction l with
  | nil => rfl
  | cons x xs ih => simp [List.set, ih]

theorem findIdx?_eq_none_of_all (l : List OrderPair) (f : OrderPair → Bool)
    (h : ∀ p ∈ l, f p = false) : l.findIdx? f = none := by
  rw [List.findIdx?_eq_none_iff]
  intro x hx
  exact h x hx

theorem findLowestBuyAux_le_acc :
    ∀ (l : List OrderPair) (i : ℕ) (a r : ℕ × OrderPair),
      findLowestBuyAux l i (some a) = some r →
      r.2.buyPrice.getD 0 ≤ a.2.buyPrice.getD 0 := by
  intro l
  induction l with
  | nil =>
      intro i a r h
      cases h
      exact le_refl _
  | cons p rest ih =>
      intro i a r h
      unfold findLowestBuyAux at h
      by_cases hb : betterLowest (some a) p = true
      · rw [if_pos hb] at h
        have h1 := ih (i + 1) (i, p) r h
        have h2 : p.buyPrice.getD 0 < a.2.buyPrice.getD 0 := by
          have := (Bool.and_eq_true _ _).mp hb
          exact of_decide_eq_true this.2
        exact le_trans h1 (le_of_lt h2)
      · rw [if_neg hb] at h
        exact ih (i + 1) a r h

theorem findLowestBuyAux_min :
    ∀ (l : List OrderPair) (i : ℕ) (acc : Option (ℕ × OrderPair))
      (r : ℕ × OrderPair),
      findLowestBuyAux l i acc = some r →
      ∀ q ∈ l, q.buyOrderId.isSome = true →
        r.2.buyPrice.getD 0 ≤ q.buyPrice.getD 0 := by
  intro l
  induction l with
  | nil =>
      intro i acc r h q hq
      cases hq
  | cons p rest ih =>
      intro i acc r h q hq hqid
      unfold findLowestBuyAux at h
      rcases List.mem_cons.mp hq with rfl | hq2
      · by_cases hb : betterLowest acc q = true
        · rw [if_pos hb] at h
          exact findLowestBuyAux_le_acc rest (i + 1) (i, q) r h
        · rw [if_neg hb] at h
          cases acc with
          | none =>
              exact absurd (by simp [betterLowest, hqid]) hb
          | some a =>
              have hle : a.2.buyPrice.getD 0 ≤ q.buyPrice.getD 0 := by
                by_contra hlt
                push_neg at hlt
                exact hb (by simp [betterLowest, hqid, hlt])
              exact le_trans (findLowestBuyAux_le_acc rest (i + 1) a r h) hle
      · by_cases hb : betterLowest acc p = true
        · rw [if_pos hb] at h
          exact ih (i + 1) (some (i, p)) r h q hq2 hqid
        · rw [if_neg hb] at h
          exact ih (i + 1) acc r h q hq2 hqid

theorem findLowestBuyAux_mem :
    ∀ (l : List OrderPair) (i : ℕ) (acc : Option (ℕ × OrderPair))
      (r : ℕ × OrderPair),
      findLowestBuyAux l i acc = some r →
      some r = acc ∨ (r.2 ∈ l ∧ r.2.buyOrderId.isSome = true) := by
  intro l
  induction l with
  | nil =>
      intro i acc r h
      exact Or.inl h.symm
  | cons p rest ih =>
      intro i acc r h
      unfold findLowestBuyAux at h
      by_cases hb : betterLowest acc p = true
      · rw [if_pos hb] at h
        rcases ih (i + 1) (some (i, p)) r h with h1 | h1
        · have hr : r = (i, p) := by
            injection h1.symm with h2
            exact h2.symm
          subst hr
          refine Or.inr ⟨List.mem_cons_self _ _, ?_⟩
          exact ((Bool.and_eq_true _ _).mp hb).1
        · exact Or.inr ⟨List.mem_cons_of_mem p h1.1, h1.2⟩
      · rw [if_neg hb] at h
        rcases ih (i + 1) acc r h with h1 | h1
        · exact Or.inl h1
        · exact Or.inr ⟨List.mem_cons_of_mem p h1.1, h1.2⟩

theorem findLowestBuyAux_isSome :
    ∀ (l : List OrderPair) (i : ℕ) (acc : Option (ℕ × OrderPair)),
      ((∃ q ∈ l, q.buyOrderId.isSome = true) ∨ acc.isSome = true) →
      (findLowestBuyAux l i acc).isSome = true := by
  intro l
  induction l with
  | nil =>
      intro i acc h
      rcases h with ⟨q, hq, _⟩ | h
      · cases hq
      · exact h
  | cons p rest ih =>
      intro i acc h
      unfold findLowestBuyAux
      by_cases hb : betterLowest acc p = true
      · rw [if_pos hb]
        exact ih (i + 1) (some (i, p)) (Or.inr rfl)
      · rw [if_neg hb]
        apply ih (i + 1) acc
        rcases h with ⟨q, hq, hqid⟩ | hacc
        · rcases List.mem_cons.mp hq with rfl | hq2
          · cases acc with
            | none => exact absurd (by simp [betterLowest, hqid]) hb
            | some a => exact Or.inr rfl
          · exact Or.inl ⟨q, hq2, hqid⟩
        · exact Or.inr hacc

/-! ### Claim C7: snapshot round-trip -/

/-- Claim C7, counterexample: the snapshot record has no `buy_order_status`
field, so a rung with an open buy leg does not survive `load(save(...))`
unchanged. -/
theorem roundtrip_loses_buy_status :
    loadSaved [{ buyOrderId := some "b", sellOrderId := some "s",
                 buyPrice := some 45000, sellPrice := some 45450,
                 buyType := some BuyType.limit, amount := 1, timestamp := 1,
                 buyOrderStatus := some BuyStatus.isOpen }] ≠
      [{ buyOrderId := some "b", sellOrderId := some "s",
         buyPrice := some 45000, sellPrice := some 45450,
         buyType := some BuyType.limit, amount := 1, timestamp := 1,
         buyOrderStatus := some BuyStatus.isOpen }] := by
  decide

/-- Claim C7, amended: for rungs whose prices are never the (falsy) decimal
zero, the snapshot round trip preserves ids, prices, buy kind, amount and
timestamp exactly, but resets every rung's `buyStatus` to none, because the
snapshot format does not record it. -/
theorem roundtrip_preserves_all_but_status (pairs : List OrderPair)
    (h : ∀ p ∈ pairs, p.buyPrice ≠ some 0 ∧ p.sellPrice ≠ some 0) :
    loadSaved pairs = pairs.map (fun p => { p with buyOrderStatus := none }) := by
  induction pairs with
  | nil => rfl
  | cons p rest ih =>
      have hp := h p (by simp)
      have hrest : ∀ q ∈ rest, q.buyPrice ≠ some 0 ∧ q.sellPrice ≠ some 0 :=
        fun q hq => h q (by simp [hq])
      have hmain : from_dict (to_dict p) = { p with buyOrderStatus := none } := by
        obtain ⟨hb, hs⟩ := hp
        cases p with
        | mk b s bp sp bt a t st =>
            simp only [to_dict, from_dict]
            cases bp with
            | none => cases sp with
              | none => rfl
              | some q =>
                  have : ¬q = 0 := fun hq => hs (by simp [hq])
                  simp [this]
            | some q =>
                have hq : ¬q = 0 := fun hq => hb (by simp [hq])
                cases sp with
                | none => simp [hq]
                | some q2 =>
                    have hq2 : ¬q2 = 0 := fun h2 => hs (by simp [h2])
                    simp [hq, hq2]
      simpa [loadSaved, hmain] using ih hrest

/-- Claim C7, witness for the amended round-trip theorem. -/
theorem roundtrip_amended_witness :
    loadSaved [{ buyOrderId := some "b", sellOrderId := some "s",
                 buyPrice := some 45000, sellPrice := some 45450,
                 buyType := some BuyType.market, amount := 2, timestamp := 3,
                 buyOrderStatus := some BuyStatus.isClosed }] =
      [{ buyOrderId := some "b", sellOrderId := some "s",
         buyPrice := some 45000, sellPrice := some 45450,
         buyType := some BuyType.market, amount := 2, timestamp := 3,
         buyOrderStatus := none }] := by
  exact roundtrip_preserves_all_but_status _ (by decide)

/-! ### Claim C9: initial market-buy amount -/

/-- Claim C9, counterexample: with grids = 10, investment = 1000 and reference
price 45000, the initial market buy is for `(1000/10)/45000 = 1/450` units,
not for `1000/45000` units as the scenario in the claim states. -/
theorem init_amount_scenario_false :
    ((initialize_grid ⟨1000, 10, 1⟩ true [] none true [] 45000 1 0).1.orderPairs.getD
          0 default).amount ≠ 1000 / 45000 ∧
      ((initialize_grid ⟨1000, 10, 1⟩ true [] none true [] 45000 1
            0).1.orderPairs.getD 0 default).amount = 100 / 45000 := by
  constructor <;> norm_num [initialize_grid, quote_per_trade]

/-- Claim C9, amended: fresh-start initialization issues the initial market
buy for `investmentPerTrade / referencePrice` units where `investmentPerTrade`
is `investment / grids`; in the scenario grids = 10, investment = 1000, price
45000 this is `100 / 45000` units. -/
theorem init_market_buy_amount (cfg : BotConfig) (ws : Bool)
    (completed0 : List OrderPair) (openIds : List String) (p : ℚ) (now : ℤ)
    (n0 : ℕ) :
    Action.marketBuy (quote_per_trade cfg / p)
        ∈ (initialize_grid cfg ws completed0 none true openIds p now n0).2 ∧
      ((initialize_grid cfg ws completed0 none true openIds p now
            n0).1.orderPairs.getD 0 default).amount = quote_per_trade cfg / p ∧
      quote_per_trade ⟨1000, 10, 1⟩ / 45000 = 100 / 45000 := by
  refine ⟨?_, rfl, by norm_num [quote_per_trade]⟩
  simp [initialize_grid, List.mem_append]

/-! ### Claim C10: sell fill with no matching rung -/

/-- Claim C10: a sell fill whose order id matches no rung's sell leg leaves
the rung collections untouched, places no order and cancels nothing; the
trade notification, a re-save of the unchanged snapshot and the status
notification still happen. -/
theorem sell_fill_no_match_frame (cfg : BotConfig) (ws : Bool) (st : GridState)
    (trade : Trade) (tickerLast : ℚ) (now : ℤ)
    (hside : trade.side = "sell")
    (hnone : ∀ p ∈ st.orderPairs, p.sellOrderId ≠ some trade.orderId) :
    handle_filled_order cfg ws st trade tickerLast now =
      (st, tradeActs ws trade ++ [Action.saveSnapshot st.orderPairs] ++
        statusActs ws st.orderPairs st.completedTrades) := by
  have hfind : st.orderPairs.findIdx?
      (fun p => p.sellOrderId == some trade.orderId) = none := by
    apply findIdx?_eq_none_of_all
    intro p hp
    simpa using hnone p hp
  have hnotbuy : ¬trade.side = "buy" := by simp [hside]
  simp [handle_filled_order, hnotbuy, hfind]

/-- Claim C10, witness. -/
theorem sell_fill_no_match_frame_witness :
    handle_filled_order ⟨1000, 10, 1⟩ true
        { orderPairs := [{ buyOrderId := some "b1", sellOrderId := some "s1",
                           buyPrice := some 45000, sellPrice := some 45450,
                           amount := 2, timestamp := 1,
                           buyOrderStatus := some BuyStatus.isClosed }],
          completedTrades := [], gridSize := 450, nextId := 0 }
        { orderId := "zzz", side := "sell", symbol := "X", amount := 5,
          price := 45450, cost := 1, timestamp := 7 } 46000 99 =
      ({ orderPairs := [{ buyOrderId := some "b1", sellOrderId := some "s1",
                          buyPrice := some 45000, sellPrice := some 45450,
                          amount := 2, timestamp := 1,
                          buyOrderStatus := some BuyStatus.isClosed }],
         completedTrades := [], gridSize := 450, nextId := 0 },
       tradeActs true
           { orderId := "zzz", side := "sell", symbol := "X", amount := 5,
             price := 45450, cost := 1, timestamp := 7 } ++
         [Action.saveSnapshot
             [{ buyOrderId := some "b1", sellOrderId := some "s1",
                buyPrice := some 45000, sellPrice := some 45450,
                amount := 2, timestamp := 1,
                buyOrderStatus := some BuyStatus.isClosed }]] ++
         statusActs true
           [{ buyOrderId := some "b1", sellOrderId := some "s1",
              buyPrice := some 45000, sellPrice := some 45450,
              amount := 2, timestamp := 1,
              buyOrderStatus := some BuyStatus.isClosed }] []) := by
  exact sell_fill_no_match_frame _ _ _ _ _ _ rfl (by decide)

/-! ### Claim C3: fresh-start grid shape -/

/-- Claim C3: after a fresh start with `gridCount = N ≥ 1` the active-rung
count is exactly `N`: the market-buy rung (kind market, status closed, priced
at the reference price) followed by `N - 1` limit-buy rungs at
`referencePrice - i * gridIncrement` for `i = 1 .. N-1`, each open.  The
price-positivity hypotheses delimit the configurations on which the Python
code completes initialization (a non-positive rung price would make it raise
while building the ladder). -/
theorem fresh_start_rung_count (cfg : BotConfig) (ws : Bool)
    (completed0 : List OrderPair) (loaded : Option (List OrderPair))
    (openIds : List String) (p : ℚ) (now : ℤ) (n0 : ℕ)
    (hg : 1 ≤ cfg.grids) (hp : 0 < p)
    (hpos : 0 < p - ((cfg.grids - 1 : ℕ) : ℚ) * calculate_grid_size cfg p) :
    (initialize_grid cfg ws completed0 loaded true openIds p now
          n0).1.orderPairs.length = cfg.grids ∧
      (((initialize_grid cfg ws completed0 loaded true openIds p now
            n0).1.orderPairs.getD 0 default).buyType = some BuyType.market ∧
        ((initialize_grid cfg ws completed0 loaded true openIds p now
            n0).1.orderPairs.getD 0 default).buyOrderStatus =
          some BuyStatus.isClosed ∧
        ((initialize_grid cfg ws completed0 loaded true openIds p now
            n0).1.orderPairs.getD 0 default).buyPrice = some p) ∧
      ∀ k, k < cfg.grids - 1 →
        ((initialize_grid cfg ws completed0 loaded true openIds p now
              n0).1.orderPairs.getD (k + 1) default).buyType =
            some BuyType.limit ∧
          ((initialize_grid cfg ws completed0 loaded true openIds p now
              n0).1.orderPairs.getD (k + 1) default).buyOrderStatus =
            some BuyStatus.isOpen ∧
          ((initialize_grid cfg ws completed0 loaded true openIds p now
              n0).1.orderPairs.getD (k + 1) default).buyPrice =
            some (p - ((k + 1 : ℕ) : ℚ) * calculate_grid_size cfg p) := by
  refine ⟨?_, ⟨rfl, rfl, rfl⟩, ?_⟩
  · simp only [initialize_grid, if_pos]
    simp only [List.length_cons, List.length_map, List.length_range]
    omega
  · intro k hk
    have hget : (initialize_grid cfg ws completed0 loaded true openIds p now
        n0).1.orderPairs.getD (k + 1) default =
        initBuyPair cfg p (calculate_grid_size cfg p) now n0 k := by
      simp only [initialize_grid, if_pos]
      simp only [List.getD_eq_getElem?_getD, List.getElem?_cons_succ,
        List.getElem?_map, List.getElem?_range hk, Option.map_some]
      rfl
    rw [hget]
    exact ⟨rfl, rfl, rfl⟩

/-- Claim C3, witness: a ten-rung fresh start. -/
theorem fresh_start_rung_count_witness :
    (initialize_grid ⟨1000, 10, 1⟩ true [] none true [] 45000 11
          0).1.orderPairs.length = 10 ∧
      ((initialize_grid ⟨1000, 10, 1⟩ true [] none true [] 45000 11
            0).1.orderPairs.getD 3 default).buyPrice =
        some (45000 - ((3 : ℕ) : ℚ) * calculate_grid_size ⟨1000, 10, 1⟩ 45000) := by
  have h := fresh_start_rung_count ⟨1000, 10, 1⟩ true [] none [] 45000 11 0
    (by norm_num) (by norm_num)
    (by norm_num [calculate_grid_size])
  exact ⟨h.1, ((h.2.2 2 (by norm_num)).2.2)⟩

/-! ### Claim C2: buy fill -/

/-- Claim C2: a buy fill at price `P` places exactly one new sell order at
`P + gridIncrement` sized at the trade's amount; the sell leg is attached to
the first rung whose buy order id matches the fill — or to a freshly
synthesized rung appended at the end when no rung matches — and that rung's
`buyStatus` becomes closed.  No other rung and neither ledger changes. -/
theorem buy_fill_attaches_sell (cfg : BotConfig) (ws : Bool) (st : GridState)
    (trade : Trade) (tickerLast : ℚ) (now : ℤ)
    (hside : trade.side = "buy") :
    (∀ i, st.orderPairs.findIdx?
        (fun p => p.buyOrderId == some trade.orderId) = some i →
      (handle_filled_order cfg ws st trade tickerLast now).1.orderPairs =
        st.orderPairs.set i
          { st.orderPairs.getD i default with
              sellOrderId := some (freshId st.nextId),
              sellPrice := some (trade.price + st.gridSize),
              buyOrderStatus := some BuyStatus.isClosed }) ∧
      (st.orderPairs.findIdx?
          (fun p => p.buyOrderId == some trade.orderId) = none →
        (handle_filled_order cfg ws st trade tickerLast now).1.orderPairs =
          st.orderPairs ++
            [{ buyOrderId := some trade.orderId,
               sellOrderId := some (freshId st.nextId),
               buyPrice := some trade.price,
               sellPrice := some (trade.price + st.gridSize),
               buyType := none,
               amount := trade.amount,
               timestamp := trade.timestamp,
               buyOrderStatus := some BuyStatus.isClosed }]) ∧
      (handle_filled_order cfg ws st trade tickerLast now).1.completedTrades =
        st.completedTrades ∧
      (handle_filled_order cfg ws st trade tickerLast now).2 =
        tradeActs ws trade ++
          [Action.limitSell trade.amount (trade.price + st.gridSize),
           Action.saveSnapshot
             (handle_filled_order cfg ws st trade tickerLast now).1.orderPairs] ++
          statusActs ws
            (handle_filled_order cfg ws st trade tickerLast now).1.orderPairs
            st.completedTrades := by
  refine ⟨?_, ?_, ?_, ?_⟩
  · intro i hi
    simp [handle_filled_order, hside, hi]
  · intro hi
    simp only [handle_filled_order, hside, if_pos, hi]
    rw [getD_last_append, set_last_append]
  · cases hfind : st.orderPairs.findIdx?
        (fun p => p.buyOrderId == some trade.orderId) with
    | none => simp [handle_filled_order, hside, hfind]
    | some i => simp [handle_filled_order, hside, hfind]
  · cases hfind : st.orderPairs.findIdx?
        (fun p => p.buyOrderId == some trade.orderId) with
    | none => simp [handle_filled_order, hside, hfind]
    | some i => simp [handle_filled_order, hside, hfind]

/-- Claim C2, witness: a buy fill matched by the first rung. -/
theorem buy_fill_attaches_sell_witness :
    (handle_filled_order ⟨1000, 10, 1⟩ true
          { orderPairs := [{ buyOrderId := some "b1",
                             buyPrice := some 45000, buyType := some BuyType.limit,
                             amount := 2, timestamp := 1,
                             buyOrderStatus := some BuyStatus.isOpen }],
            completedTrades := [], gridSize := 450, nextId := 0 }
          { orderId := "b1", side := "buy", symbol := "X", amount := 2,
            price := 45000, cost := 1, timestamp := 7 } 46000 99).1.orderPairs =
      [{ buyOrderId := some "b1",
         buyPrice := some 45000, buyType := some BuyType.limit,
         amount := 2, timestamp := 1,
         buyOrderStatus := some BuyStatus.isOpen }].set 0
        { ([{ buyOrderId := some "b1",
              buyPrice := some 45000, buyType := some BuyType.limit,
              amount := 2, timestamp := 1,
              buyOrderStatus := some BuyStatus.isOpen }] :
            List OrderPair).getD 0 default with
            sellOrderId := some (freshId 0),
            sellPrice := some ((45000 : ℚ) + 450),
            buyOrderStatus := some BuyStatus.isClosed } := by
  exact (buy_fill_attaches_sell _ _ _ _ _ _ rfl).1 0 (by decide)

/-! ### Claim C1: sell fill on a matched rung -/

/-- Claim C1, counterexample: the replacement rung records the *trade's*
amount, not the original rung's amount.  Here the original rung holds 2
units, the fill reports 5, and after handling no rung with an open buy leg
carries the original amount 2. -/
theorem sell_fill_replacement_amount_cex :
    ((handle_filled_order ⟨1000, 10, 1⟩ true
        { orderPairs := [{ buyOrderId := some "b1", sellOrderId := some "s1",
                           buyPrice := some 45000, sellPrice := some 45450,
                           amount := 2, timestamp := 1,
                           buyOrderStatus := some BuyStatus.isClosed },
                         { buyOrderId := some "b2", sellOrderId := some "s2",
                           buyPrice := some 44550, sellPrice := some 45000,
                           amount := 3, timestamp := 1,
                           buyOrderStatus := some BuyStatus.isClosed }],
          completedTrades := [], gridSize := 450, nextId := 0 }
        { orderId := "s1", side := "sell", symbol := "X", amount := 5,
          price := 45450, cost := 1, timestamp := 7 } 46000 99).1.orderPairs.all
      (fun p =>
        !(p.buyOrderStatus == some BuyStatus.isOpen && p.amount == 2))) = true := by
  decide

/-- Limit-buy placements among the engine's actions. -/
def isLimitBuy : Action → Bool
  | Action.limitBuy _ _ => true
  | _ => false

/-- Claim C1, amended: for every sell fill matching the rung at (first match)
index `i`, handling the fill moves that rung to the completed ledger
(count + 1), places exactly one replacement limit buy — at the rung's
original buy price for the rung's original amount —, appends one fresh rung
with `buyStatus` open, the original buy price and the *trade's* amount (not
the original rung's amount), and leaves the active-rung count unchanged.
When some other rung still holds a different sell leg, the post-fill rung
list is exactly that erase-and-append and the call ends with the save and
the status notification; when the filled order was the last active sell leg,
trail-up then replaces the rung found by the lowest-buy search — possibly
the fresh rung itself — in place with the new market entry (the buy-price
guard in that branch delimits the states on which the Python comparison
loop does not raise). -/
theorem sell_fill_replaces_rung (cfg : BotConfig) (ws : Bool) (st : GridState)
    (trade : Trade) (tickerLast : ℚ) (now : ℤ) (i : ℕ) (orig : OrderPair)
    (hside : trade.side = "sell")
    (hfind : st.orderPairs.findIdx?
      (fun p => p.sellOrderId == some trade.orderId) = some i)
    (horig : st.orderPairs[i]? = some orig) :
    (handle_filled_order cfg ws st trade tickerLast now).1.completedTrades =
        st.completedTrades ++ [orig] ∧
      (handle_filled_order cfg ws st trade tickerLast
            now).1.orderPairs.length = st.orderPairs.length ∧
      (handle_filled_order cfg ws st trade tickerLast now).2.filter
          isLimitBuy = [Action.limitBuy orig.amount orig.buyPrice] ∧
      (lastSellOrder
          (st.orderPairs.eraseIdx i ++
            [{ buyOrderId := some (freshId st.nextId),
               buyPrice := orig.buyPrice, amount := trade.amount,
               timestamp := trade.timestamp,
               buyOrderStatus := some BuyStatus.isOpen }]) trade.orderId =
            false →
        (handle_filled_order cfg ws st trade tickerLast now).1.orderPairs =
            st.orderPairs.eraseIdx i ++
              [{ buyOrderId := some (freshId st.nextId),
                 buyPrice := orig.buyPrice, amount := trade.amount,
                 timestamp := trade.timestamp,
                 buyOrderStatus := some BuyStatus.isOpen }] ∧
          (handle_filled_order cfg ws st trade tickerLast now).2 =
            tradeActs ws trade ++
              [Action.limitBuy orig.amount orig.buyPrice,
               Action.saveSnapshot
                 (handle_filled_order cfg ws st trade tickerLast
                   now).1.orderPairs] ++
              statusActs ws
                (handle_filled_order cfg ws st trade tickerLast
                  now).1.orderPairs
                (st.completedTrades ++ [orig])) ∧
      (lastSellOrder
          (st.orderPairs.eraseIdx i ++
            [{ buyOrderId := some (freshId st.nextId),
               buyPrice := orig.buyPrice, amount := trade.amount,
               timestamp := trade.timestamp,
               buyOrderStatus := some BuyStatus.isOpen }]) trade.orderId =
            true →
        (∀ q ∈ st.orderPairs.eraseIdx i ++
            [({ buyOrderId := some (freshId st.nextId),
                buyPrice := orig.buyPrice, amount := trade.amount,
                timestamp := trade.timestamp,
                buyOrderStatus := some BuyStatus.isOpen } : OrderPair)],
          q.buyOrderId.isSome = true → q.buyPrice.isSome = true) →
        ∃ j low,
          findLowestBuy
              (st.orderPairs.eraseIdx i ++
                [{ buyOrderId := some (freshId st.nextId),
                   buyPrice := orig.buyPrice, amount := trade.amount,
                   timestamp := trade.timestamp,
                   buyOrderStatus := some BuyStatus.isOpen }]) =
              some (j, low) ∧
            (handle_filled_order cfg ws st trade tickerLast now).1.orderPairs =
              (st.orderPairs.eraseIdx i ++
                [({ buyOrderId := some (freshId st.nextId),
                    buyPrice := orig.buyPrice, amount := trade.amount,
                    timestamp := trade.timestamp,
                    buyOrderStatus := some BuyStatus.isOpen } :
                   OrderPair)]).set j
                ({ buyOrderId := some (freshId (st.nextId + 1)),
                   sellOrderId := some (freshId (st.nextId + 1 + 1)),
                   buyPrice := some tickerLast,
                   sellPrice := some (tickerLast + st.gridSize),
                   amount := quote_per_trade cfg / tickerLast,
                   timestamp := now,
                   buyOrderStatus := some BuyStatus.isClosed } : OrderPair)) := by
  have hnotbuy : ¬trade.side = "buy" := by simp [hside]
  obtain ⟨hlt, hix⟩ := List.getElem?_eq_some_iff.mp horig
  refine ⟨?_, ?_, ?_, ?_, ?_⟩
  · cases hls : lastSellOrder
        (st.orderPairs.eraseIdx i ++
          [{ buyOrderId := some (freshId st.nextId),
             buyPrice := orig.buyPrice, amount := trade.amount,
             timestamp := trade.timestamp,
             buyOrderStatus := some BuyStatus.isOpen }]) trade.orderId with
    | false => simp [handle_filled_order, hnotbuy, hfind, horig, hix, hls]
    | true =>
        rcases hfl : findLowestBuy
            (st.orderPairs.eraseIdx i ++
              [{ buyOrderId := some (freshId st.nextId),
                 buyPrice := orig.buyPrice, amount := trade.amount,
                 timestamp := trade.timestamp,
                 buyOrderStatus := some BuyStatus.isOpen }]) with _ | jl
        · simp [handle_filled_order, hnotbuy, hfind, horig, hix, hls,
            trailUp, hfl]
        · obtain ⟨j, low⟩ := jl
          simp [handle_filled_order, hnotbuy, hfind, horig, hix, hls,
            trailUp, hfl]
  · cases hls : lastSellOrder
        (st.orderPairs.eraseIdx i ++
          [{ buyOrderId := some (freshId st.nextId),
             buyPrice := orig.buyPrice, amount := trade.amount,
             timestamp := trade.timestamp,
             buyOrderStatus := some BuyStatus.isOpen }]) trade.orderId with
    | false =>
        simp [handle_filled_order, hnotbuy, hfind, horig, hix, hls,
          List.length_eraseIdx, hlt]
        omega
    | true =>
        rcases hfl : findLowestBuy
            (st.orderPairs.eraseIdx i ++
              [{ buyOrderId := some (freshId st.nextId),
                 buyPrice := orig.buyPrice, amount := trade.amount,
                 timestamp := trade.timestamp,
                 buyOrderStatus := some BuyStatus.isOpen }]) with _ | jl
        · simp [handle_filled_order, hnotbuy, hfind, horig, hix, hls,
            trailUp, hfl, List.length_eraseIdx, hlt]
          omega
        · obtain ⟨j, low⟩ := jl
          simp [handle_filled_order, hnotbuy, hfind, horig, hix, hls,
            trailUp, hfl, List.length_eraseIdx, hlt]
          omega
  · cases hls : lastSellOrder
        (st.orderPairs.eraseIdx i ++
          [{ buyOrderId := some (freshId st.nextId),
             buyPrice := orig.buyPrice, amount := trade.amount,
             timestamp := trade.timestamp,
             buyOrderStatus := some BuyStatus.isOpen }]) trade.orderId with
    | false =>
        cases ws <;>
          simp [handle_filled_order, hnotbuy, hfind, horig, hix, hls,
            tradeActs, statusActs, isLimitBuy]
    | true =>
        rcases hfl : findLowestBuy
            (st.orderPairs.eraseIdx i ++
              [{ buyOrderId := some (freshId st.nextId),
                 buyPrice := orig.buyPrice, amount := trade.amount,
                 timestamp := trade.timestamp,
                 buyOrderStatus := some BuyStatus.isOpen }]) with _ | jl
        · cases ws <;>
            simp [handle_filled_order, hnotbuy, hfind, horig, hix, hls,
              trailUp, hfl, tradeActs, statusActs, isLimitBuy]
        · obtain ⟨j, low⟩ := jl
          rcases hlb : low.buyOrderId with _ | oid <;> cases ws <;>
            simp [handle_filled_order, hnotbuy, hfind, horig, hix, hls,
              trailUp, hfl, hlb, tradeActs, statusActs, isLimitBuy]
  · intro hls
    constructor
    · simp [handle_filled_order, hnotbuy, hfind, horig, hix, hls]
    · simp [handle_filled_order, hnotbuy, hfind, horig, hix, hls]
  · intro hls hbps
    have hcand : (findLowestBuy
        (st.orderPairs.eraseIdx i ++
          [{ buyOrderId := some (freshId st.nextId),
             buyPrice := orig.buyPrice, amount := trade.amount,
             timestamp := trade.timestamp,
             buyOrderStatus := some BuyStatus.isOpen }])).isSome = true := by
      apply findLowestBuyAux_isSome
      exact Or.inl ⟨{ buyOrderId := some (freshId st.nextId),
                      buyPrice := orig.buyPrice, amount := trade.amount,
                      timestamp := trade.timestamp,
                      buyOrderStatus := some BuyStatus.isOpen },
        by simp, rfl⟩
    obtain ⟨⟨j, low⟩, hfl⟩ := Option.isSome_iff_exists.mp hcand
    refine ⟨j, low, hfl, ?_⟩
    simp [handle_filled_order, hnotbuy, hfind, horig, hix, hls, trailUp, hfl]

/-- Claim C1, witness for the amended sell-fill theorem. -/
theorem sell_fill_replaces_rung_witness :
    (handle_filled_order ⟨1000, 10, 1⟩ true
          { orderPairs := [{ buyOrderId := some "b1", sellOrderId := some "s1",
                             buyPrice := some 45000, sellPrice := some 45450,
                             amount := 2, timestamp := 1,
                             buyOrderStatus := some BuyStatus.isClosed },
                           { buyOrderId := some "b2", sellOrderId := some "s2",
                             buyPrice := some 44550, sellPrice := some 45000,
                             amount := 3, timestamp := 1,
                             buyOrderStatus := some BuyStatus.isClosed }],
            completedTrades := [], gridSize := 450, nextId := 0 }
          { orderId := "s1", side := "sell", symbol := "X", amount := 5,
            price := 45450, cost := 1, timestamp := 7 } 46000
          99).1.completedTrades =
        [] ++ [{ buyOrderId := some "b1", sellOrderId := some "s1",
                 buyPrice := some 45000, sellPrice := some 45450,
                 amount := 2, timestamp := 1,
                 buyOrderStatus := some BuyStatus.isClosed }] ∧
      (handle_filled_order ⟨1000, 10, 1⟩ true
          { orderPairs := [{ buyOrderId := some "b1", sellOrderId := some "s1",
                             buyPrice := some 45000, sellPrice := some 45450,
                             amount := 2, timestamp := 1,
                             buyOrderStatus := some BuyStatus.isClosed },
                           { buyOrderId := some "b2", sellOrderId := some "s2",
                             buyPrice := some 44550, sellPrice := some 45000,
                             amount := 3, timestamp := 1,
                             buyOrderStatus := some BuyStatus.isClosed }],
            completedTrades := [], gridSize := 450, nextId := 0 }
          { orderId := "s1", side := "sell", symbol := "X", amount := 5,
            price := 45450, cost := 1, timestamp := 7 } 46000
          99).1.orderPairs.length = 2 ∧
      (handle_filled_order ⟨1000, 10, 1⟩ true
          { orderPairs := [{ buyOrderId := some "b1", sellOrderId := some "s1",
                             buyPrice := some 45000, sellPrice := some 45450,
                             amount := 2, timestamp := 1,
                             buyOrderStatus := some BuyStatus.isClosed },
                           { buyOrderId := some "b2", sellOrderId := some "s2",
                             buyPrice := some 44550, sellPrice := some 45000,
                             amount := 3, timestamp := 1,
                             buyOrderStatus := some BuyStatus.isClosed }],
            completedTrades := [], gridSize := 450, nextId := 0 }
          { orderId := "s1", side := "sell", symbol := "X", amount := 5,
            price := 45450, cost := 1, timestamp := 7 } 46000 99).2.filter
          isLimitBuy =
        [Action.limitBuy 2 (some 45000)] := by
  have h := sell_fill_replaces_rung ⟨1000, 10, 1⟩ true
    { orderPairs := [{ buyOrderId := some "b1", sellOrderId := some "s1",
                       buyPrice := some 45000, sellPrice := some 45450,
                       amount := 2, timestamp := 1,
                       buyOrderStatus := some BuyStatus.isClosed },
                     { buyOrderId := some "b2", sellOrderId := some "s2",
                       buyPrice := some 44550, sellPrice := some 45000,
                       amount := 3, timestamp := 1,
                       buyOrderStatus := some BuyStatus.isClosed }],
      completedTrades := [], gridSize := 450, nextId := 0 }
    { orderId := "s1", side := "sell", symbol := "X", amount := 5,
      price := 45450, cost := 1, timestamp := 7 } 46000 99 0
    { buyOrderId := some "b1", sellOrderId := some "s1",
      buyPrice := some 45000, sellPrice := some 45450,
      amount := 2, timestamp := 1,
      buyOrderStatus := some BuyStatus.isClosed }
    rfl (by decide) (by decide)
  exact ⟨h.1, h.2.1, h.2.2.1⟩

/-! ### Claim C5: health-check repair of a silently filled buy leg -/

/-- Claim C5: when the health check reaches a rung whose buy leg is open, of
kind limit and missing from the venue's open-order set, and the authoritative
status is closed, it marks the buy leg closed and places a sell order for the
rung's amount at `max(currentPrice, buyPrice) + gridIncrement`, attaching the
fresh sell leg to the rung in place. -/
theorem health_buy_closed_repair (env : HealthEnv) (g : ℚ) (hs : HealthSt)
    (p : OrderPair) (bid : String) (bp : ℚ)
    (hid : p.buyOrderId = some bid) (hbid : bid ≠ "")
    (hnew : p.buyOrderId ∉ hs.newOrderIds)
    (hst : p.buyOrderStatus = some BuyStatus.isOpen)
    (hopen : bid ∉ env.openOrderIds)
    (hkind : p.buyType = some BuyType.limit)
    (hfetch : env.fetchOrder bid = some OrdStatus.closed)
    (hbp : p.buyPrice = some bp) :
    healthStep env g hs p =
      { hs with
          pairs := replaceFirst hs.pairs p
            { p with buyOrderStatus := some BuyStatus.isClosed,
                     sellOrderId := some (freshId hs.nextId),
                     sellPrice := some (max env.tickerLast bp + g) },
          newOrderIds := hs.newOrderIds ++ [some (freshId hs.nextId)],
          updated := true, nextId := hs.nextId + 1,
          acts := hs.acts ++
            [Action.limitSell p.amount (max env.tickerLast bp + g)] } := by
  have hmax : max (env.tickerLast + g) (bp + g) = max env.tickerLast bp + g :=
    max_add_add_right env.tickerLast bp g
  have hnew2 : (some bid : Option String) ∉ hs.newOrderIds := hid ▸ hnew
  simp [healthStep, buyCheck, hid, hbid, hnew2, hst, hopen, hkind, hfetch, hbp,
    hmax]

/-- Claim C5, witness: a single open limit rung repaired after its buy fills
while the engine was not watching. -/
theorem health_buy_closed_repair_witness :
    healthStep
        { openOrderIds := ["s1"], tickerLast := 46000,
          fetchOrder := fun i => if i = "b2" then some OrdStatus.closed else none,
          now := 5 } 450
        { pairs := [{ buyOrderId := some "b2", buyPrice := some 44550,
                      buyType := some BuyType.limit, amount := 3, timestamp := 1,
                      buyOrderStatus := some BuyStatus.isOpen }],
          completed := [], newOrderIds := [], updated := false, nextId := 0,
          acts := [] }
        { buyOrderId := some "b2", buyPrice := some 44550,
          buyType := some BuyType.limit, amount := 3, timestamp := 1,
          buyOrderStatus := some BuyStatus.isOpen } =
      { pairs := replaceFirst
          [{ buyOrderId := some "b2", buyPrice := some 44550,
             buyType := some BuyType.limit, amount := 3, timestamp := 1,
             buyOrderStatus := some BuyStatus.isOpen }]
          { buyOrderId := some "b2", buyPrice := some 44550,
            buyType := some BuyType.limit, amount := 3, timestamp := 1,
            buyOrderStatus := some BuyStatus.isOpen }
          { buyOrderId := some "b2", buyPrice := some 44550,
            buyType := some BuyType.limit, amount := 3, timestamp := 1,
            buyOrderStatus := some BuyStatus.isClosed,
            sellOrderId := some (freshId 0),
            sellPrice := some (max (46000 : ℚ) 44550 + 450) },
        completed := [], newOrderIds := [] ++ [some (freshId 0)],
        updated := true, nextId := 0 + 1,
        acts := [] ++ [Action.limitSell 3 (max (46000 : ℚ) 44550 + 450)] } := by
  exact health_buy_closed_repair _ _ _ _ "b2" 44550 rfl (by decide) (by decide)
    rfl (by decide) rfl rfl rfl

/-! ### Claim C6: excess-rung trim -/

theorem trimExcessGo_eq : ∀ (n g : ℕ) (l : List OrderPair), l.length ≤ n →
    trimExcessGo n g l =
      (l.take g, (((l.drop g).reverse.map pairLegCancels)).flatten) := by
  intro n
  induction n with
  | zero =>
      intro g l hl
      have hnil : l = [] := List.eq_nil_of_length_eq_zero (by omega)
      subst hnil
      simp [trimExcessGo]
  | succ n ih =>
      intro g l hl
      by_cases h : g < l.length
      · have hne : l ≠ [] := List.ne_nil_of_length_pos (by omega)
        have hL : l.getLast? = some (l.getLast hne) := List.getLast?_eq_getLast l hne
        have hrec := ih g l.dropLast (by simp [List.length_dropLast]; omega)
        have hcat : l.dropLast ++ [l.getLast hne] = l :=
          List.dropLast_concat_getLast hne
        simp only [trimExcessGo, if_pos h, hL, hrec]
        refine Prod.ext ?_ ?_
        · show l.dropLast.take g = l.take g
          rw [List.dropLast_eq_take, List.take_take]
          congr 1
          omega
        · show pairLegCancels (l.getLast hne) ++
              ((l.dropLast.drop g).reverse.map pairLegCancels).flatten =
            ((l.drop g).reverse.map pairLegCancels).flatten
          conv_rhs => rw [← hcat]
          rw [List.drop_append_eq_append_drop]
          have h0 : g - l.dropLast.length = 0 := by
            simp only [List.length_dropLast]
            omega
          rw [h0]
          simp [List.reverse_append]
      · have htake : l.take g = l := List.take_of_length_le (by omega)
        have hdrop : l.drop g = [] := List.drop_eq_nil_of_le (by omega)
        simp [trimExcessGo, if_neg h, htake, hdrop]

/-- Closed form of the excess-rung trim loop: the remaining rungs are the
oldest `grids` ones, and the legs of the dropped suffix are cancelled in pop
order (most recently added first). -/
theorem trimExcess_eq (g : ℕ) (l : List OrderPair) :
    trimExcess g l =
      (l.take g, (((l.drop g).reverse.map pairLegCancels)).flatten) :=
  trimExcessGo_eq l.length g l le_rfl

/-- Claim C6: a health-check pass ends with at most `grids` active rungs; the
survivors are exactly the oldest `grids` rungs of the post-repair list (so
every removed rung is a most recently added one), and both non-null legs of
every removed rung are cancelled on the venue during the pass. -/
theorem health_check_caps_rungs (cfg : BotConfig) (env : HealthEnv)
    (st : GridState) :
    (check_order_health cfg env st).1.orderPairs =
        ((st.orderPairs.foldl (healthStep env st.gridSize)
            { pairs := st.orderPairs, completed := st.completedTrades,
              newOrderIds := [], updated := false, nextId := st.nextId,
              acts := [] }).pairs).take cfg.grids ∧
      (check_order_health cfg env st).1.orderPairs.length ≤ cfg.grids ∧
      ∀ p ∈ ((st.orderPairs.foldl (healthStep env st.gridSize)
          { pairs := st.orderPairs, completed := st.completedTrades,
            newOrderIds := [], updated := false, nextId := st.nextId,
            acts := [] }).pairs).drop cfg.grids,
        ∀ s : String,
          (p.buyOrderId = some s → s ≠ "" →
            Action.cancelOrder s ∈ (check_order_health cfg env st).2) ∧
          (p.sellOrderId = some s → s ≠ "" →
            Action.cancelOrder s ∈ (check_order_health cfg env st).2) := by
  refine ⟨?_, ?_, ?_⟩
  · simp [check_order_health, trimExcess_eq]
  · simp [check_order_health, trimExcess_eq]
  · intro p hp s
    have hmem : ∀ a ∈ pairLegCancels p,
        a ∈ (check_order_health cfg env st).2 := by
      intro a ha
      have h2 : a ∈ (trimExcess cfg.grids
          ((st.orderPairs.foldl (healthStep env st.gridSize)
            { pairs := st.orderPairs, completed := st.completedTrades,
              newOrderIds := [], updated := false, nextId := st.nextId,
              acts := [] }).pairs)).2 := by
        rw [trimExcess_eq]
        exact List.mem_flatten_of_mem
          (List.mem_map_of_mem pairLegCancels (List.mem_reverse.mpr hp)) ha
      simp only [check_order_health, List.mem_append]
      exact Or.inl (Or.inr h2)
    constructor
    · intro hb hs
      apply hmem
      simp [pairLegCancels, cancelIfTruthy, hb, hs]
    · intro hb hs
      apply hmem
      simp [pairLegCancels, cancelIfTruthy, hb, hs]

/-- Claim C6, witness: three rungs against a two-rung configuration; the
newest rung is removed and both its legs are cancelled. -/
theorem health_check_caps_rungs_witness :
    (check_order_health ⟨1000, 2, 1⟩
          { openOrderIds := ["b1", "s1", "b2", "s2", "b3", "s3"],
            tickerLast := 45000, fetchOrder := fun _ => none, now := 5 }
          { orderPairs := [{ buyOrderId := some "b1", sellOrderId := some "s1",
                             buyPrice := some 45000, sellPrice := some 45450,
                             amount := 2, timestamp := 1,
                             buyOrderStatus := some BuyStatus.isClosed },
                           { buyOrderId := some "b2", sellOrderId := some "s2",
                             buyPrice := some 44550, sellPrice := some 45000,
                             amount := 3, timestamp := 1,
                             buyOrderStatus := some BuyStatus.isClosed },
                           { buyOrderId := some "b3", sellOrderId := some "s3",
                             buyPrice := some 44100, sellPrice := some 44550,
                             amount := 4, timestamp := 1,
                             buyOrderStatus := some BuyStatus.isClosed }],
            completedTrades := [], gridSize := 450,
            nextId := 0 }).1.orderPairs.length ≤ 2 ∧
      Action.cancelOrder "b3" ∈ (check_order_health ⟨1000, 2, 1⟩
          { openOrderIds := ["b1", "s1", "b2", "s2", "b3", "s3"],
            tickerLast := 45000, fetchOrder := fun _ => none, now := 5 }
          { orderPairs := [{ buyOrderId := some "b1", sellOrderId := some "s1",
                             buyPrice := some 45000, sellPrice := some 45450,
                             amount := 2, timestamp := 1,
                             buyOrderStatus := some BuyStatus.isClosed },
                           { buyOrderId := some "b2", sellOrderId := some "s2",
                             buyPrice := some 44550, sellPrice := some 45000,
                             amount := 3, timestamp := 1,
                             buyOrderStatus := some BuyStatus.isClosed },
                           { buyOrderId := some "b3", sellOrderId := some "s3",
                             buyPrice := some 44100, sellPrice := some 44550,
                             amount := 4, timestamp := 1,
                             buyOrderStatus := some BuyStatus.isClosed }],
            completedTrades := [], gridSize := 450, nextId := 0 }).2 := by
  refine ⟨(health_check_caps_rungs _ _ _).2.1, ?_⟩
  exact ((health_check_caps_rungs _ _ _).2.2
      { buyOrderId := some "b3", sellOrderId := some "s3",
        buyPrice := some 44100, sellPrice := some 44550,
        amount := 4, timestamp := 1,
        buyOrderStatus := some BuyStatus.isClosed }
      (by decide) "b3").1 rfl (by decide)

/-! ### Claim C8: persistence happens iff a repair happened -/

/-- Snapshot-persistence actions. -/
def isSave : Action → Bool
  | Action.saveSnapshot _ => true
  | _ => false

/-- Order-placement actions (the only actions the repair loop records). -/
def isPlacement : Action → Bool
  | Action.limitBuy _ _ => true
  | Action.limitSell _ _ => true
  | _ => false

/-- Claim C8, counterexample: a pass in which every tracked order is still
open but the rung count exceeds the configured grid count removes the excess
rung and cancels its legs, yet persists nothing — the trim loop does not set
`orders_updated`. -/
theorem health_check_trim_without_save :
    (check_order_health ⟨1000, 2, 1⟩
          { openOrderIds := ["b1", "s1", "b2", "s2", "b3", "s3"],
            tickerLast := 45000, fetchOrder := fun _ => none, now := 5 }
          { orderPairs := [{ buyOrderId := some "b1", sellOrderId := some "s1",
                             buyPrice := some 45000, sellPrice := some 45450,
                             amount := 2, timestamp := 1,
                             buyOrderStatus := some BuyStatus.isClosed },
                           { buyOrderId := some "b2", sellOrderId := some "s2",
                             buyPrice := some 44550, sellPrice := some 45000,
                             amount := 3, timestamp := 1,
                             buyOrderStatus := some BuyStatus.isClosed },
                           { buyOrderId := some "b3", sellOrderId := some "s3",
                             buyPrice := some 44100, sellPrice := some 44550,
                             amount := 4, timestamp := 1,
                             buyOrderStatus := some BuyStatus.isClosed }],
            completedTrades := [], gridSize := 450,
            nextId := 0 }).1.orderPairs ≠
        [{ buyOrderId := some "b1", sellOrderId := some "s1",
           buyPrice := some 45000, sellPrice := some 45450,
           amount := 2, timestamp := 1,
           buyOrderStatus := some BuyStatus.isClosed },
         { buyOrderId := some "b2", sellOrderId := some "s2",
           buyPrice := some 44550, sellPrice := some 45000,
           amount := 3, timestamp := 1,
           buyOrderStatus := some BuyStatus.isClosed },
         { buyOrderId := some "b3", sellOrderId := some "s3",
           buyPrice := some 44100, sellPrice := some 44550,
           amount := 4, timestamp := 1,
           buyOrderStatus := some BuyStatus.isClosed }] ∧
      (check_order_health ⟨1000, 2, 1⟩
          { openOrderIds := ["b1", "s1", "b2", "s2", "b3", "s3"],
            tickerLast := 45000, fetchOrder := fun _ => none, now := 5 }
          { orderPairs := [{ buyOrderId := some "b1", sellOrderId := some "s1",
                             buyPrice := some 45000, sellPrice := some 45450,
                             amount := 2, timestamp := 1,
                             buyOrderStatus := some BuyStatus.isClosed },
                           { buyOrderId := some "b2", sellOrderId := some "s2",
                             buyPrice := some 44550, sellPrice := some 45000,
                             amount := 3, timestamp := 1,
                             buyOrderStatus := some BuyStatus.isClosed },
                           { buyOrderId := some "b3", sellOrderId := some "s3",
                             buyPrice := some 44100, sellPrice := some 44550,
                             amount := 4, timestamp := 1,
                             buyOrderStatus := some BuyStatus.isClosed }],
            completedTrades := [], gridSize := 450, nextId := 0 }).2 =
        [Action.cancelOrder "b3", Action.cancelOrder "s3"] := by
  constructor
  · decide
  · decide

/-- Invariant of the repair loop: every recorded action is an order
placement, and the `orders_updated` flag is set exactly when some action has
been recorded. -/
def repairInv (hs : HealthSt) : Prop :=
  (∀ a ∈ hs.acts, isPlacement a = true) ∧ (hs.updated = true ↔ hs.acts ≠ [])

theorem buyCheck_acts (env : HealthEnv) (g : ℚ) (hs : HealthSt)
    (cur : OrderPair) :
    ((buyCheck env g hs cur).1.acts = hs.acts ∧
        (buyCheck env g hs cur).1.updated = hs.updated) ∨
      ∃ a, isPlacement a = true ∧
        (buyCheck env g hs cur).1.acts = hs.acts ++ [a] ∧
        (buyCheck env g hs cur).1.updated = true := by
  unfold buyCheck
  cases hid : cur.buyOrderId with
  | none => exact Or.inl ⟨rfl, rfl⟩
  | some bid =>
      dsimp only
      by_cases hcond : cur.buyOrderStatus = some BuyStatus.isOpen ∧ bid ≠ "" ∧
          bid ∉ env.openOrderIds ∧ cur.buyType = some BuyType.limit
      · rw [if_pos hcond]
        cases hf : env.fetchOrder bid with
        | none => exact Or.inl ⟨rfl, rfl⟩
        | some os =>
            cases os with
            | closed =>
                cases hbp : cur.buyPrice with
                | none => exact Or.inl ⟨rfl, rfl⟩
                | some bp =>
                    exact Or.inr ⟨Action.limitSell cur.amount
                      (max (env.tickerLast + g) (bp + g)), rfl, rfl, rfl⟩
            | canceled =>
                cases hbp : cur.buyPrice with
                | none => exact Or.inl ⟨rfl, rfl⟩
                | some bp =>
                    exact Or.inr ⟨Action.limitBuy cur.amount
                      (some (min env.tickerLast bp)), rfl, rfl, rfl⟩
            | other => exact Or.inl ⟨rfl, rfl⟩
      · rw [if_neg hcond]
        exact Or.inl ⟨rfl, rfl⟩

theorem sellCheck_acts (env : HealthEnv) (g : ℚ) (hs : HealthSt)
    (cur : OrderPair) :
    ((sellCheck env g hs cur).acts = hs.acts ∧
        (sellCheck env g hs cur).updated = hs.updated) ∨
      ∃ a, isPlacement a = true ∧
        (sellCheck env g hs cur).acts = hs.acts ++ [a] ∧
        (sellCheck env g hs cur).updated = true := by
  unfold sellCheck
  cases hid : cur.sellOrderId with
  | none => exact Or.inl ⟨rfl, rfl⟩
  | some sid =>
      dsimp only
      by_cases hcond : sid ≠ "" ∧ sid ∉ env.openOrderIds
      · rw [if_pos hcond]
        cases hf : env.fetchOrder sid with
        | none => exact Or.inl ⟨rfl, rfl⟩
        | some os =>
            cases os with
            | closed =>
                cases hsp : cur.sellPrice with
                | none => exact Or.inl ⟨rfl, rfl⟩
                | some sp =>
                    exact Or.inr ⟨Action.limitBuy cur.amount
                      (some (min (env.tickerLast - g) (sp - g))), rfl, rfl, rfl⟩
            | canceled =>
                cases hsp : cur.sellPrice with
                | none => exact Or.inl ⟨rfl, rfl⟩
                | some sp =>
                    exact Or.inr ⟨Action.limitSell cur.amount
                      (max env.tickerLast sp), rfl, rfl, rfl⟩
            | other => exact Or.inl ⟨rfl, rfl⟩
      · rw [if_neg hcond]
        exact Or.inl ⟨rfl, rfl⟩

theorem repairInv_healthStep (env : HealthEnv) (g : ℚ) (hs : HealthSt)
    (p : OrderPair) (h : repairInv hs) : repairInv (healthStep env g hs p) := by
  have keep : ∀ hs1 hs2 : HealthSt,
      repairInv hs1 →
      (hs2.acts = hs1.acts ∧ hs2.updated = hs1.updated) ∨
        (∃ a, isPlacement a = true ∧ hs2.acts = hs1.acts ++ [a] ∧
          hs2.updated = true) →
      repairInv hs2 := by
    rintro hs1 hs2 ⟨hall, hiff⟩ (⟨ha, hu⟩ | ⟨a, hpa, ha, hu⟩)
    · exact ⟨by rw [ha]; exact hall, by rw [ha, hu]; exact hiff⟩
    · refine ⟨?_, ?_⟩
      · intro b hb
        rw [ha] at hb
        rcases List.mem_append.mp hb with h1 | h1
        · exact hall b h1
        · rw [List.mem_singleton.mp h1]
          exact hpa
      · rw [ha, hu]
        simp
  unfold healthStep
  by_cases h1 : p.buyOrderId ∈ hs.newOrderIds
  · rwa [if_pos h1]
  · rw [if_neg h1]
    have hb := keep hs (buyCheck env g hs p).1 h (buyCheck_acts env g hs p)
    by_cases h2 : (buyCheck env g hs p).2.sellOrderId ∈
        (buyCheck env g hs p).1.newOrderIds
    · rwa [if_pos h2]
    · rw [if_neg h2]
      exact keep _ _ hb (sellCheck_acts env g _ _)

theorem repairInv_foldl (env : HealthEnv) (g : ℚ) :
    ∀ (l : List OrderPair) (hs : HealthSt), repairInv hs →
      repairInv (l.foldl (healthStep env g) hs) := by
  intro l
  induction l with
  | nil => intro hs h; exact h
  | cons p rest ih =>
      intro hs h
      exact ih _ (repairInv_healthStep env g hs p h)

theorem mem_pairLegCancels (a : Action) (p : OrderPair)
    (h : a ∈ pairLegCancels p) : ∃ s, a = Action.cancelOrder s := by
  rcases List.mem_append.mp h with h1 | h1 <;>
    [cases hid : p.buyOrderId; cases hid : p.sellOrderId] <;>
    rw [hid] at h1 <;> simp only [cancelIfTruthy] at h1
  · cases h1
  · split at h1
    · cases h1
    · exact ⟨_, List.mem_singleton.mp h1⟩
  · cases h1
  · split at h1
    · cases h1
    · exact ⟨_, List.mem_singleton.mp h1⟩

/-- Claim C8, amended: a health-check pass persists the snapshot if and only
if the per-rung repair phase placed at least one repair order (which is
exactly when `orders_updated` is set); removal of excess rungs and their
cancellations alone never triggers persistence. -/
theorem health_check_persists_iff (cfg : BotConfig) (env : HealthEnv)
    (st : GridState) :
    ((check_order_health cfg env st).2.any isSave = true) ↔
      ((check_order_health cfg env st).2.any isPlacement = true) := by
  have hInv : repairInv (st.orderPairs.foldl (healthStep env st.gridSize)
      { pairs := st.orderPairs, completed := st.completedTrades,
        newOrderIds := [], updated := false, nextId := st.nextId,
        acts := [] }) :=
    repairInv_foldl env st.gridSize st.orderPairs _ (by constructor <;> simp)
  obtain ⟨hall, hiff⟩ := hInv
  have htrim : ∀ a ∈ (trimExcess cfg.grids
      ((st.orderPairs.foldl (healthStep env st.gridSize)
        { pairs := st.orderPairs, completed := st.completedTrades,
          newOrderIds := [], updated := false, nextId := st.nextId,
          acts := [] })).pairs).2, ∃ s, a = Action.cancelOrder s := by
    intro a ha
    rw [trimExcess_eq] at ha
    rcases List.mem_flatten.mp ha with ⟨l, hl, hal⟩
    rcases List.mem_map.mp hl with ⟨p, _, rfl⟩
    exact mem_pairLegCancels a p hal
  simp only [check_order_health, List.any_append, Bool.or_eq_true,
    List.any_eq_true]
  constructor
  · rintro ((⟨a, ha, hsa⟩ | ⟨a, ha, hsa⟩) | ⟨a, ha, hsa⟩)
    · have hpl := hall a ha
      cases a <;> simp [isPlacement, isSave] at hpl hsa ⊢
    · rcases htrim a ha with ⟨s, rfl⟩
      simp [isSave] at hsa
    · have hupd : (st.orderPairs.foldl (healthStep env st.gridSize)
          { pairs := st.orderPairs, completed := st.completedTrades,
            newOrderIds := [], updated := false, nextId := st.nextId,
            acts := [] }).updated = true := by
        by_contra hu
        rw [Bool.not_eq_true] at hu
        rw [hu] at ha
        simp at ha
      have hne := hiff.mp hupd
      rcases List.exists_mem_of_ne_nil _ hne with ⟨b, hb⟩
      exact Or.inl (Or.inl ⟨b, hb, hall b hb⟩)
  · rintro ((⟨a, ha, hsa⟩ | ⟨a, ha, hsa⟩) | ⟨a, ha, hsa⟩)
    · have hupd : (st.orderPairs.foldl (healthStep env st.gridSize)
          { pairs := st.orderPairs, completed := st.completedTrades,
            newOrderIds := [], updated := false, nextId := st.nextId,
            acts := [] }).updated = true :=
        hiff.mpr (fun hnil => by rw [hnil] at ha; cases ha)
      refine Or.inr ?_
      simp [hupd, isSave]
    · rcases htrim a ha with ⟨s, rfl⟩
      simp [isPlacement] at hsa
    · have hupd : (st.orderPairs.foldl (healthStep env st.gridSize)
          { pairs := st.orderPairs, completed := st.completedTrades,
            newOrderIds := [], updated := false, nextId := st.nextId,
            acts := [] }).updated = true := by
        by_contra hu
        rw [Bool.not_eq_true] at hu
        rw [hu] at ha
        simp at ha
      refine Or.inr ?_
      simp [hupd, isSave]

/-! ### Claim C4: trail-up -/

/-- Claim C4: after a matching sell fill, trail-up triggers exactly when the
filled order was the only active sell leg: if every other remaining rung has
no sell leg (or only one with the same id), the engine cancels the buy order
of a rung carrying the numerically lowest buy price among active rungs,
issues a fresh market buy of `investmentPerTrade / currentPrice`, places a
new sell at `currentPrice + gridIncrement` and replaces that rung in place
with the fresh entry; if some other rung still holds a different sell leg, no
market buy happens and the rung list is just the post-fill list.  The
buy-price hypotheses delimit the states on which the Python comparison loop
does not raise. -/
theorem trail_up_spec (cfg : BotConfig) (ws : Bool) (st : GridState)
    (trade : Trade) (tickerLast : ℚ) (now : ℤ) (i : ℕ) (orig : OrderPair)
    (hside : trade.side = "sell")
    (hfind : st.orderPairs.findIdx?
      (fun p => p.sellOrderId == some trade.orderId) = some i)
    (horig : st.orderPairs[i]? = some orig)
    (hbps : ∀ q ∈ st.orderPairs, q.buyOrderId.isSome = true →
      q.buyPrice.isSome = true)
    (horigbp : orig.buyPrice.isSome = true) :
    ((∀ q ∈ st.orderPairs.eraseIdx i,
        q.sellOrderId = none ∨ q.sellOrderId = some trade.orderId) →
      ∃ j low,
        findLowestBuy (st.orderPairs.eraseIdx i ++
          [{ buyOrderId := some (freshId st.nextId), buyPrice := orig.buyPrice,
             amount := trade.amount, timestamp := trade.timestamp,
             buyOrderStatus := some BuyStatus.isOpen }]) = some (j, low) ∧
        low ∈ st.orderPairs.eraseIdx i ++
          [{ buyOrderId := some (freshId st.nextId), buyPrice := orig.buyPrice,
             amount := trade.amount, timestamp := trade.timestamp,
             buyOrderStatus := some BuyStatus.isOpen }] ∧
        low.buyOrderId.isSome = true ∧
        (∀ q ∈ st.orderPairs.eraseIdx i ++
            [{ buyOrderId := some (freshId st.nextId),
               buyPrice := orig.buyPrice, amount := trade.amount,
               timestamp := trade.timestamp,
               buyOrderStatus := some BuyStatus.isOpen }],
          q.buyOrderId.isSome = true →
            low.buyPrice.getD 0 ≤ q.buyPrice.getD 0) ∧
        (∀ s, low.buyOrderId = some s →
          Action.cancelOrder s ∈
            (handle_filled_order cfg ws st trade tickerLast now).2) ∧
        Action.marketBuy (quote_per_trade cfg / tickerLast) ∈
          (handle_filled_order cfg ws st trade tickerLast now).2 ∧
        Action.limitSell (quote_per_trade cfg / tickerLast)
            (tickerLast + st.gridSize) ∈
          (handle_filled_order cfg ws st trade tickerLast now).2 ∧
        (handle_filled_order cfg ws st trade tickerLast now).1.orderPairs =
          (st.orderPairs.eraseIdx i ++
            [({ buyOrderId := some (freshId st.nextId),
                buyPrice := orig.buyPrice, amount := trade.amount,
                timestamp := trade.timestamp,
                buyOrderStatus := some BuyStatus.isOpen } : OrderPair)]).set j
            ({ buyOrderId := some (freshId (st.nextId + 1)),
               sellOrderId := some (freshId (st.nextId + 1 + 1)),
               buyPrice := some tickerLast,
               sellPrice := some (tickerLast + st.gridSize),
               amount := quote_per_trade cfg / tickerLast,
               timestamp := now,
               buyOrderStatus := some BuyStatus.isClosed } : OrderPair)) ∧
      ((∃ q ∈ st.orderPairs.eraseIdx i,
          q.sellOrderId ≠ none ∧ q.sellOrderId ≠ some trade.orderId) →
        (handle_filled_order cfg ws st trade tickerLast now).1.orderPairs =
            st.orderPairs.eraseIdx i ++
              [{ buyOrderId := some (freshId st.nextId),
                 buyPrice := orig.buyPrice, amount := trade.amount,
                 timestamp := trade.timestamp,
                 buyOrderStatus := some BuyStatus.isOpen }] ∧
          ∀ amt, Action.marketBuy amt ∉
            (handle_filled_order cfg ws st trade tickerLast now).2) := by
  have hnotbuy : ¬trade.side = "buy" := by simp [hside]
  obtain ⟨hlt, hix⟩ := List.getElem?_eq_some_iff.mp horig
  constructor
  · intro hC
    have hlastT : lastSellOrder
        (st.orderPairs.eraseIdx i ++
          [{ buyOrderId := some (freshId st.nextId), buyPrice := orig.buyPrice,
             amount := trade.amount, timestamp := trade.timestamp,
             buyOrderStatus := some BuyStatus.isOpen }]) trade.orderId = true := by
      rw [lastSellOrder, List.all_eq_true]
      intro x hx
      rcases List.mem_append.mp hx with h1 | h1
      · rcases hC x h1 with h2 | h2 <;> simp [h2]
      · rw [List.mem_singleton.mp h1]
        simp
    have hcand : (findLowestBuy
        (st.orderPairs.eraseIdx i ++
          [{ buyOrderId := some (freshId st.nextId), buyPrice := orig.buyPrice,
             amount := trade.amount, timestamp := trade.timestamp,
             buyOrderStatus := some BuyStatus.isOpen }])).isSome = true := by
      apply findLowestBuyAux_isSome
      exact Or.inl ⟨{ buyOrderId := some (freshId st.nextId),
                      buyPrice := orig.buyPrice, amount := trade.amount,
                      timestamp := trade.timestamp,
                      buyOrderStatus := some BuyStatus.isOpen },
        by simp, rfl⟩
    obtain ⟨⟨j, low⟩, hfl⟩ := Option.isSome_iff_exists.mp hcand
    have hmemc := findLowestBuyAux_mem _ 0 none _ hfl
    rcases hmemc with h1 | h1
    · cases h1
    refine ⟨j, low, hfl, h1.1, h1.2,
      findLowestBuyAux_min _ 0 none _ hfl, ?_, ?_, ?_, ?_⟩
    · intro s hlow
      simp [handle_filled_order, hnotbuy, hfind, horig, hix, hlastT, trailUp,
        hfl, hlow, tradeActs, statusActs]
    · simp [handle_filled_order, hnotbuy, hfind, horig, hix, hlastT, trailUp,
        hfl, tradeActs, statusActs]
    · simp [handle_filled_order, hnotbuy, hfind, horig, hix, hlastT, trailUp,
        hfl, tradeActs, statusActs]
    · simp [handle_filled_order, hnotbuy, hfind, horig, hix, hlastT, trailUp,
        hfl]
  · intro hq
    have hlastF : lastSellOrder
        (st.orderPairs.eraseIdx i ++
          [{ buyOrderId := some (freshId st.nextId), buyPrice := orig.buyPrice,
             amount := trade.amount, timestamp := trade.timestamp,
             buyOrderStatus := some BuyStatus.isOpen }]) trade.orderId = false := by
      rcases hq with ⟨q, hqmem, hq1, hq2⟩
      rw [lastSellOrder, List.all_eq_false]
      refine ⟨q, by simp [hqmem], ?_⟩
      cases hqs : q.sellOrderId with
      | none => exact absurd hqs hq1
      | some s =>
          have hne : s ≠ trade.orderId := by
            intro h
            exact hq2 (by simp [hqs, h])
          simp [hqs, hne]
    constructor
    · simp [handle_filled_order, hnotbuy, hfind, horig, hix, hlastF]
    · intro amt
      cases ws <;>
        simp [handle_filled_order, hnotbuy, hfind, horig, hix, hlastF,
          tradeActs, statusActs]

/-- Claim C4, witness: the only rung's sell leg fills, so trail-up fires. -/
theorem trail_up_spec_witness :
    ∃ j low,
      findLowestBuy
          ([({ buyOrderId := some "b1", sellOrderId := some "s1",
               buyPrice := some 45000, sellPrice := some 45450, amount := 2,
               timestamp := 1,
               buyOrderStatus := some BuyStatus.isClosed } :
              OrderPair)].eraseIdx 0 ++
            [({ buyOrderId := some (freshId 0), buyPrice := some (45000 : ℚ),
                amount := 2, timestamp := 7,
                buyOrderStatus := some BuyStatus.isOpen } : OrderPair)]) =
          some (j, low) ∧
        low ∈ [({ buyOrderId := some "b1", sellOrderId := some "s1",
                  buyPrice := some 45000, sellPrice := some 45450, amount := 2,
                  timestamp := 1,
                  buyOrderStatus := some BuyStatus.isClosed } :
                 OrderPair)].eraseIdx 0 ++
            [({ buyOrderId := some (freshId 0), buyPrice := some (45000 : ℚ),
                amount := 2, timestamp := 7,
                buyOrderStatus := some BuyStatus.isOpen } : OrderPair)] ∧
        low.buyOrderId.isSome = true ∧
        (∀ q ∈ [({ buyOrderId := some "b1", sellOrderId := some "s1",
                   buyPrice := some 45000, sellPrice := some 45450,
                   amount := 2, timestamp := 1,
                   buyOrderStatus := some BuyStatus.isClosed } :
                  OrderPair)].eraseIdx 0 ++
            [({ buyOrderId := some (freshId 0), buyPrice := some (45000 : ℚ),
                amount := 2, timestamp := 7,
                buyOrderStatus := some BuyStatus.isOpen } : OrderPair)],
          q.buyOrderId.isSome = true →
            low.buyPrice.getD 0 ≤ q.buyPrice.getD 0) ∧
        (∀ s, low.buyOrderId = some s →
          Action.cancelOrder s ∈
            (handle_filled_order ⟨1000, 10, 1⟩ true
                { orderPairs := [{ buyOrderId := some "b1",
                                   sellOrderId := some "s1",
                                   buyPrice := some 45000,
                                   sellPrice := some 45450, amount := 2,
                                   timestamp := 1,
                                   buyOrderStatus := some BuyStatus.isClosed }],
                  completedTrades := [], gridSize := 450, nextId := 0 }
                { orderId := "s1", side := "sell", symbol := "X", amount := 2,
                  price := 45450, cost := 1, timestamp := 7 } 46000 99).2) ∧
        Action.marketBuy (quote_per_trade ⟨1000, 10, 1⟩ / 46000) ∈
          (handle_filled_order ⟨1000, 10, 1⟩ true
              { orderPairs := [{ buyOrderId := some "b1",
                                 sellOrderId := some "s1",
                                 buyPrice := some 45000,
                                 sellPrice := some 45450, amount := 2,
                                 timestamp := 1,
                                 buyOrderStatus := some BuyStatus.isClosed }],
                completedTrades := [], gridSize := 450, nextId := 0 }
              { orderId := "s1", side := "sell", symbol := "X", amount := 2,
                price := 45450, cost := 1, timestamp := 7 } 46000 99).2 ∧
        Action.limitSell (quote_per_trade ⟨1000, 10, 1⟩ / 46000)
            ((46000 : ℚ) + 450) ∈
          (handle_filled_order ⟨1000, 10, 1⟩ true
              { orderPairs := [{ buyOrderId := some "b1",
                                 sellOrderId := some "s1",
                                 buyPrice := some 45000,
                                 sellPrice := some 45450, amount := 2,
                                 timestamp := 1,
                                 buyOrderStatus := some BuyStatus.isClosed }],
                completedTrades := [], gridSize := 450, nextId := 0 }
              { orderId := "s1", side := "sell", symbol := "X", amount := 2,
                price := 45450, cost := 1, timestamp := 7 } 46000 99).2 ∧
        (handle_filled_order ⟨1000, 10, 1⟩ true
            { orderPairs := [{ buyOrderId := some "b1",
                               sellOrderId := some "s1",
                               buyPrice := some 45000, sellPrice := some 45450,
                               amount := 2, timestamp := 1,
                               buyOrderStatus := some BuyStatus.isClosed }],
              completedTrades := [], gridSize := 450, nextId := 0 }
            { orderId := "s1", side := "sell", symbol := "X", amount := 2,
              price := 45450, cost := 1, timestamp := 7 } 46000
            99).1.orderPairs =
          ([({ buyOrderId := some "b1", sellOrderId := some "s1",
               buyPrice := some 45000, sellPrice := some 45450, amount := 2,
               timestamp := 1,
               buyOrderStatus := some BuyStatus.isClosed } :
              OrderPair)].eraseIdx 0 ++
            [({ buyOrderId := some (freshId 0), buyPrice := some (45000 : ℚ),
                amount := 2, timestamp := 7,
                buyOrderStatus := some BuyStatus.isOpen } : OrderPair)]).set j
            ({ buyOrderId := some (freshId (0 + 1)),
               sellOrderId := some (freshId (0 + 1 + 1)),
               buyPrice := some (46000 : ℚ),
               sellPrice := some ((46000 : ℚ) + 450),
               amount := quote_per_trade ⟨1000, 10, 1⟩ / 46000,
               timestamp := 99,
               buyOrderStatus := some BuyStatus.isClosed } : OrderPair) := by
  exact (trail_up_spec ⟨1000, 10, 1⟩ true
      { orderPairs := [{ buyOrderId := some "b1", sellOrderId := some "s1",
                         buyPrice := some 45000, sellPrice := some 45450,
                         amount := 2, timestamp := 1,
                         buyOrderStatus := some BuyStatus.isClosed }],
        completedTrades := [], gridSize := 450, nextId := 0 }
      { orderId := "s1", side := "sell", symbol := "X", amount := 2,
        price := 45450, cost := 1, timestamp := 7 } 46000 99 0
      { buyOrderId := some "b1", sellOrderId := some "s1",
        buyPrice := some 45000, sellPrice := some 45450, amount := 2,
        timestamp := 1, buyOrderStatus := some BuyStatus.isClosed }
      rfl (by decide) (by decide) (by decide) rfl).1 (by decide)

end Gridbot
